import Mathlib

/-!
# Verification of the TestHelpers assertion/test-harness library

A shallow embedding of `src/TestHelpers.h`: the `TestException` failure
record, the assertion macros (`TEST_EQUAL`, `TEST_NOTEQUAL`,
`TEST_GREATER_THAN_OR_EQUAL`, `TEST_LESS_THAN_OR_EQUAL`, `TEST_THROWS`,
`TEST_THROWS_ANY`) and the `IMPLEMENT_TEST_MAIN` runner.

Modelling conventions:
* A C++ exception in flight is a `Thrown` value: a `TestException`
  (which inherits from no type), an object of a class derived from
  `std::exception` (carrying its class name and its `what()` message),
  or an object of a class that derives from nothing.
* Evaluating a statement either returns normally or throws: `Outcome`.
* A `catch` chain is modelled by an explicit dispatch function returning
  which handler fires, so that "which handler consumed the exception"
  is itself a stated fact.
* `fmt::format` calls are modelled by string concatenation of the
  template's literal chunks with the formatted arguments; formatting a
  `std::exception` renders its `what()` message.
* Operand evaluation order and multiplicity are modelled by an effect
  trace: an operand expression is a value together with the list of
  effect tokens its evaluation emits, and the trace of a macro body is
  the concatenation of the traces of its evaluations in program order.
-/

namespace TestHelpers

/-- A source position: `__FILE__`, `__LINE__`, `__FUNCTION__` at a macro
expansion site. -/
structure SrcPos where
  file : String
  line : Nat
  func : String
deriving DecidableEq, Repr

/-- The exception thrown when a test fails (class `TestException`,
src/TestHelpers.h lines 28-47): file name, line number, function name and
a single message.  It inherits from no type. -/
structure TestException where
  mFileName : String
  mLineNumber : Nat
  mFunctionName : String
  mMessage : String
deriving DecidableEq, Repr, BEq

/-- An exception object in flight.  `testExc` is a `TestException` (derives
from nothing); `stdExc` is an object of a class derived from
`std::exception`, with its class name and its `what()` message; `rawExc` is
an object of a class that derives from nothing. -/
inductive Thrown where
  | testExc (e : TestException)
  | stdExc (className : String) (whatMsg : String)
  | rawExc (className : String)
deriving DecidableEq, Repr, BEq

/-- The result of evaluating a statement: normal return, or an exception
propagating out. -/
inductive Outcome where
  | ok
  | thrown (t : Thrown)
deriving DecidableEq, Repr, BEq

/-- The exception class named as `ExcClass` in `TEST_THROWS`: the
`TestException` class itself, a class in the `std::exception` hierarchy
(`stdC "std::exception"` is the base itself), or a class deriving from
nothing. -/
inductive ExcClass where
  | testExceptionC
  | stdC (name : String)
  | rawC (name : String)
deriving DecidableEq, Repr

/-- The source text of the exception class, as `#ExcClass` stringizes it. -/
def ExcClass.name : ExcClass → String
  | .testExceptionC => "TestException"
  | .stdC n => n
  | .rawC n => n

/-- C++ catch matching: `catch (const C &)` matches a thrown object whose
class is `C` or derives from `C`.  `TestException` and raw classes derive
from nothing, so they match only their own class; a class derived from
`std::exception` also matches a `catch (const std::exception &)`. -/
def catchMatches : ExcClass → Thrown → Bool
  | .testExceptionC, .testExc _ => true
  | .stdC n, .stdExc cn _ => n == cn || n == "std::exception"
  | .rawC n, .rawExc cn => n == cn
  | _, _ => false

/-- The `what()` message of a thrown object ("" when the object has none:
only `std::exception` descendants carry one). -/
def Thrown.what : Thrown → String
  | .stdExc _ w => w
  | _ => ""

/-- Which of `TEST_THROWS`'s three handlers fires:
`catch (const ExcClass &)`, `catch (const std::exception &)`, `catch (...)`
(src/TestHelpers.h lines 174-188). -/
inductive ThrowsHandler where
  | expected
  | stdHandler
  | catchAll
deriving DecidableEq, Repr

/-- Handler dispatch for `TEST_THROWS`'s catch chain, in source order:
first `catch (const ExcClass &)`, then `catch (const std::exception &)`
(matching only objects of classes derived from `std::exception`), then
`catch (...)`. -/
def throwsDispatch (c : ExcClass) (t : Thrown) : ThrowsHandler :=
  if catchMatches c t then .expected
  else match t with
    | .stdExc _ _ => .stdHandler
    | _ => .catchAll

/-- Message of the `TestException` thrown by `TEST_THROWS` when the
statement did not throw (src/TestHelpers.h line 170). -/
def throwsNoThrowMsg (c : ExcClass) : String :=
  "Failed to throw an exception of type " ++ c.name

/-- Message of the `TestException` thrown by `TEST_THROWS`'s
`catch (const std::exception &)` handler (src/TestHelpers.h line 180);
formatting the caught exception renders its `what()` message. -/
def throwsStdMsg (c : ExcClass) (whatMsg : String) : String :=
  "An unexpected std::exception descendant was thrown, was expecting type "
    ++ c.name ++ ". Exception message is: " ++ whatMsg

/-- Message of the `TestException` thrown by `TEST_THROWS`'s `catch (...)`
handler (src/TestHelpers.h line 186). -/
def throwsUnknownMsg (c : ExcClass) : String :=
  "An unexpected unknown exception object was thrown, was expecting type "
    ++ c.name

/-- The outcome produced by `TEST_THROWS`'s catch chain on a thrown
object `t`: the handler selected by `throwsDispatch` runs. -/
def throwsCatch (c : ExcClass) (pos : SrcPos) (t : Thrown) : Outcome :=
  match throwsDispatch c t with
  | .expected => .ok
  | .stdHandler =>
      .thrown (.testExc ⟨pos.file, pos.line, pos.func, throwsStdMsg c t.what⟩)
  | .catchAll =>
      .thrown (.testExc ⟨pos.file, pos.line, pos.func, throwsUnknownMsg c⟩)

/-- `TEST_THROWS(Stmt, ExcClass)` (src/TestHelpers.h lines 166-189).
Inside the `try`, either `Stmt` throws, or the macro itself throws a
`TestException` with the "failed to throw" message; either way the thrown
object then runs through the catch chain of the same `try` block. -/
def TEST_THROWS (stmt : Outcome) (c : ExcClass) (pos : SrcPos) : Outcome :=
  match stmt with
  | .ok =>
      throwsCatch c pos
        (.testExc ⟨pos.file, pos.line, pos.func, throwsNoThrowMsg c⟩)
  | .thrown t => throwsCatch c pos t

/-- Message of the `TestException` thrown by `TEST_THROWS_ANY` when the
statement did not throw (src/TestHelpers.h line 200). -/
def anyNoThrowMsg : String := "Failed to throw an exception of any type"

/-- `TEST_THROWS_ANY(Stmt)` (src/TestHelpers.h lines 196-209).  Inside the
`try`, either `Stmt` throws, or the macro itself throws a `TestException`
with the "failed to throw" message; the thrown object then meets
`catch (const TestException & exc) { throw exc; }` (re-raising the record)
followed by `catch (...)` (the expected case). -/
def TEST_THROWS_ANY (stmt : Outcome) (pos : SrcPos) : Outcome :=
  let t : Thrown :=
    match stmt with
    | .ok => .testExc ⟨pos.file, pos.line, pos.func, anyNoThrowMsg⟩
    | .thrown t => t
  match t with
  | .testExc e => .thrown (.testExc e)
  | _ => .ok

/-- Failure message of `TEST_EQUAL(VAL1, VAL2)` (src/TestHelpers.h line 61):
`fmt::format("Equality test failed: {} != {} \n{} = {}\n{} = {}", #VAL1,
#VAL2, #VAL1, v1, #VAL2, v2)`, with `t1 t2` the stringized operand texts
and `s1 s2` the formatted operand values. -/
def equalFailMsg (t1 t2 s1 s2 : String) : String :=
  "Equality test failed: " ++ t1 ++ " != " ++ t2 ++ " \n"
    ++ t1 ++ " = " ++ s1 ++ "\n" ++ t2 ++ " = " ++ s2

/-- `TEST_EQUAL(VAL1, VAL2)` (src/TestHelpers.h lines 54-67) on the already
evaluated operand values `v1 v2`: throw on `v1 != v2`, else fall through. -/
def TEST_EQUAL {α : Type} [DecidableEq α] [ToString α]
    (v1 v2 : α) (t1 t2 : String) (pos : SrcPos) : Outcome :=
  if v1 ≠ v2 then
    .thrown (.testExc ⟨pos.file, pos.line, pos.func,
      equalFailMsg t1 t2 (toString v1) (toString v2)⟩)
  else .ok

/-- Failure message of `TEST_NOTEQUAL(VAL1, VAL2)` (src/TestHelpers.h
line 101): `fmt::format("Inequality test failed: {} == {} (== {})", #VAL1,
#VAL2, v1)`. -/
def notEqualFailMsg (t1 t2 s1 : String) : String :=
  "Inequality test failed: " ++ t1 ++ " == " ++ t2 ++ " (== " ++ s1 ++ ")"

/-- `TEST_NOTEQUAL(VAL1, VAL2)` (src/TestHelpers.h lines 94-105) on the
already evaluated operand values: throw on `v1 == v2`, else fall through. -/
def TEST_NOTEQUAL {α : Type} [DecidableEq α] [ToString α]
    (v1 v2 : α) (t1 t2 : String) (pos : SrcPos) : Outcome :=
  if v1 = v2 then
    .thrown (.testExc ⟨pos.file, pos.line, pos.func,
      notEqualFailMsg t1 t2 (toString v1)⟩)
  else .ok

/-- Failure message of `TEST_GREATER_THAN_OR_EQUAL(Stmt, Val)`
(src/TestHelpers.h line 133): `fmt::format("Comparison failed: {} < {}\n{}
= {}\n{} = {}", #Stmt, #Val, #Stmt, v1, #Val, v2)`. -/
def gteFailMsg (t1 t2 s1 s2 : String) : String :=
  "Comparison failed: " ++ t1 ++ " < " ++ t2 ++ "\n"
    ++ t1 ++ " = " ++ s1 ++ "\n" ++ t2 ++ " = " ++ s2

/-- `TEST_GREATER_THAN_OR_EQUAL(Stmt, Val)` (src/TestHelpers.h lines
126-139) on the already evaluated operand values: throw on `v1 < v2`,
else fall through. -/
def TEST_GREATER_THAN_OR_EQUAL {α : Type} [LinearOrder α] [ToString α]
    (v1 v2 : α) (t1 t2 : String) (pos : SrcPos) : Outcome :=
  if v1 < v2 then
    .thrown (.testExc ⟨pos.file, pos.line, pos.func,
      gteFailMsg t1 t2 (toString v1) (toString v2)⟩)
  else .ok

/-- Failure message of `TEST_LESS_THAN_OR_EQUAL(Stmt, Val)`
(src/TestHelpers.h line 153): `fmt::format("Comparison failed: {} > {}\n{}
= {}\n{} = {}", #Stmt, #Val, #Stmt, v1, #Val, v2)`. -/
def lteFailMsg (t1 t2 s1 s2 : String) : String :=
  "Comparison failed: " ++ t1 ++ " > " ++ t2 ++ "\n"
    ++ t1 ++ " = " ++ s1 ++ "\n" ++ t2 ++ " = " ++ s2

/-- `TEST_LESS_THAN_OR_EQUAL(Stmt, Val)` (src/TestHelpers.h lines 146-159)
on the already evaluated operand values: throw on `v1 > v2`, else fall
through. -/
def TEST_LESS_THAN_OR_EQUAL {α : Type} [LinearOrder α] [ToString α]
    (v1 v2 : α) (t1 t2 : String) (pos : SrcPos) : Outcome :=
  if v1 > v2 then
    .thrown (.testExc ⟨pos.file, pos.line, pos.func,
      lteFailMsg t1 t2 (toString v1) (toString v2)⟩)
  else .ok

/-- An operand expression with side effects: evaluating it once emits
`effects` (a list of effect tokens, in order) and yields `value`. -/
structure Expr (α : Type) where
  value : α
  effects : List Nat

/-- One evaluation of an operand expression: the emitted effect trace and
the produced value. -/
def Expr.eval {α : Type} (e : Expr α) : List Nat × α := (e.effects, e.value)

/-- The full expansion of `TEST_EQUAL(VAL1, VAL2)` with effectful operands:
`auto v1 = VAL1; auto v2 = VAL2;` evaluates `VAL1` then `VAL2`, once each
(src/TestHelpers.h lines 57-58); the `if`/`throw` that follows only reads
`v1`, `v2`.  Returns the emitted effect trace and the outcome. -/
def TEST_EQUAL_run {α : Type} [DecidableEq α] [ToString α]
    (e1 e2 : Expr α) (t1 t2 : String) (pos : SrcPos) : List Nat × Outcome :=
  let (fx1, v1) := e1.eval
  let (fx2, v2) := e2.eval
  (fx1 ++ fx2, TEST_EQUAL v1 v2 t1 t2 pos)

/-- The full expansion of `TEST_NOTEQUAL(VAL1, VAL2)` with effectful
operands (src/TestHelpers.h lines 97-98). -/
def TEST_NOTEQUAL_run {α : Type} [DecidableEq α] [ToString α]
    (e1 e2 : Expr α) (t1 t2 : String) (pos : SrcPos) : List Nat × Outcome :=
  let (fx1, v1) := e1.eval
  let (fx2, v2) := e2.eval
  (fx1 ++ fx2, TEST_NOTEQUAL v1 v2 t1 t2 pos)

/-- The full expansion of `TEST_GREATER_THAN_OR_EQUAL(Stmt, Val)` with
effectful operands (src/TestHelpers.h lines 129-130). -/
def TEST_GREATER_THAN_OR_EQUAL_run {α : Type} [LinearOrder α] [ToString α]
    (e1 e2 : Expr α) (t1 t2 : String) (pos : SrcPos) : List Nat × Outcome :=
  let (fx1, v1) := e1.eval
  let (fx2, v2) := e2.eval
  (fx1 ++ fx2, TEST_GREATER_THAN_OR_EQUAL v1 v2 t1 t2 pos)

/-- An observable event of a test run: a line printed to standard output,
or a test case beginning execution (identified by the case's id). -/
inductive Event where
  | printed (line : String)
  | ran (caseId : Nat)
deriving DecidableEq, Repr

/-- A test case of the suite: an id (its position of interest for the
trace) and the outcome of executing its body. -/
structure TestCase where
  id : Nat
  body : Outcome
deriving DecidableEq, Repr

/-- Executing the test-case sequence of `TestCode` (the statements between
the braces of `IMPLEMENT_TEST_MAIN`): cases run in order; the first one
whose body throws aborts the rest, and the exception propagates.  Returns
the event trace (a `ran` event as each case starts) and the overall
outcome. -/
def runSeq : List TestCase → List Event × Outcome
  | [] => ([], .ok)
  | c :: rest =>
    match c.body with
    | .ok => (.ran c.id :: (runSeq rest).1, (runSeq rest).2)
    | .thrown t => ([.ran c.id], .thrown t)

/-- Which of `main`'s three handlers fires: `catch (const TestException &)`,
`catch (const std::exception &)`, `catch (...)` (src/TestHelpers.h lines
233-252). -/
inductive MainHandler where
  | testExcH
  | stdH
  | catchAllH
deriving DecidableEq, Repr

/-- The line printed when a `TestException` reaches `main`'s explicit
`TestException` handler (src/TestHelpers.h line 235). -/
def failTestExcLine (e : TestException) : String :=
  "Test has failed at file " ++ e.mFileName ++ ", line "
    ++ toString e.mLineNumber ++ ", function " ++ e.mFunctionName ++ ":\n"
    ++ e.mMessage

/-- The line printed when a `std::exception` descendant reaches `main`
(src/TestHelpers.h line 245): its `what()` message is interpolated. -/
def failStdLine (whatMsg : String) : String :=
  "Test has failed, an exception was thrown: " ++ whatMsg

/-- The line printed when an unrecognized object reaches `main`'s
`catch (...)` (src/TestHelpers.h line 250). -/
def failUnknownLine : String :=
  "Test has failed, an unhandled exception was thrown."

/-- `main`'s catch chain, in source order: the explicit `TestException`
handler, then `catch (const std::exception &)`, then `catch (...)`.
Returns which handler fired and the failure line it prints. -/
def mainCatch : Thrown → MainHandler × String
  | .testExc e => (.testExcH, failTestExcLine e)
  | .stdExc _ w => (.stdH, failStdLine w)
  | .rawExc _ => (.catchAllH, failUnknownLine)

/-- The start banner (src/TestHelpers.h line 227). -/
def startLine (testName : String) : String := "Test started: " ++ testName

/-- The completion line (src/TestHelpers.h line 254). -/
def finishedLine : String := "Test finished"

/-- The result of a test-program run: the event trace (printed lines and
started test cases, in order) and the process exit code. -/
structure RunResult where
  events : List Event
  exitCode : Nat
deriving DecidableEq, Repr

/-- `IMPLEMENT_TEST_MAIN(TestName, TestCode)` (src/TestHelpers.h lines
224-256): print the start banner, run the test-case sequence inside the
`try`; on normal completion print the completion line and return 0; on an
exception, the handler selected by `mainCatch` prints its failure line and
returns 1. -/
def IMPLEMENT_TEST_MAIN (testName : String) (cases : List TestCase) :
    RunResult :=
  match (runSeq cases).2 with
  | .ok =>
      ⟨.printed (startLine testName)
        :: ((runSeq cases).1 ++ [.printed finishedLine]), 0⟩
  | .thrown t =>
      ⟨.printed (startLine testName)
        :: ((runSeq cases).1 ++ [.printed (mainCatch t).2]), 1⟩

/-- The line an event printed, if any. -/
def printedOf : Event → Option String
  | .printed s => some s
  | .ran _ => none

/-- The id of the test case an event started, if any. -/
def ranOf : Event → Option Nat
  | .printed _ => none
  | .ran i => some i

/-- The lines printed during a run, in order. -/
def RunResult.output (r : RunResult) : List String :=
  r.events.filterMap printedOf

/-- The ids of the test cases that began executing, in order. -/
def RunResult.executed (r : RunResult) : List Nat :=
  r.events.filterMap ranOf

/-- `sub` occurs as a contiguous substring of `msg`. -/
def strContains (msg sub : String) : Prop := ∃ p s, msg = p ++ sub ++ s

/-- `equalFailMsg` contains the stringized operand texts and both formatted
operand values. -/
theorem equalFailMsg_contains (t1 t2 s1 s2 : String) :
    strContains (equalFailMsg t1 t2 s1 s2) t1
    ∧ strContains (equalFailMsg t1 t2 s1 s2) t2
    ∧ strContains (equalFailMsg t1 t2 s1 s2) s1
    ∧ strContains (equalFailMsg t1 t2 s1 s2) s2 :=
  ⟨⟨"Equality test failed: ",
    " != " ++ t2 ++ " \n" ++ t1 ++ " = " ++ s1 ++ "\n" ++ t2 ++ " = " ++ s2,
    by simp [equalFailMsg, String.append_assoc]⟩,
   ⟨"Equality test failed: " ++ t1 ++ " != ",
    " \n" ++ t1 ++ " = " ++ s1 ++ "\n" ++ t2 ++ " = " ++ s2,
    by simp [equalFailMsg, String.append_assoc]⟩,
   ⟨"Equality test failed: " ++ t1 ++ " != " ++ t2 ++ " \n" ++ t1 ++ " = ",
    "\n" ++ t2 ++ " = " ++ s2,
    by simp [equalFailMsg, String.append_assoc]⟩,
   ⟨"Equality test failed: " ++ t1 ++ " != " ++ t2 ++ " \n" ++ t1 ++ " = "
      ++ s1 ++ "\n" ++ t2 ++ " = ", "",
    by simp [equalFailMsg, String.append_assoc, String.append_empty]⟩⟩

/-- `gteFailMsg` reports `stmt < bound` and contains both formatted
values. -/
theorem gteFailMsg_contains (t1 t2 s1 s2 : String) :
    strContains (gteFailMsg t1 t2 s1 s2) (t1 ++ " < " ++ t2)
    ∧ strContains (gteFailMsg t1 t2 s1 s2) s1
    ∧ strContains (gteFailMsg t1 t2 s1 s2) s2 :=
  ⟨⟨"Comparison failed: ",
    "\n" ++ t1 ++ " = " ++ s1 ++ "\n" ++ t2 ++ " = " ++ s2,
    by simp [gteFailMsg, String.append_assoc]⟩,
   ⟨"Comparison failed: " ++ t1 ++ " < " ++ t2 ++ "\n" ++ t1 ++ " = ",
    "\n" ++ t2 ++ " = " ++ s2,
    by simp [gteFailMsg, String.append_assoc]⟩,
   ⟨"Comparison failed: " ++ t1 ++ " < " ++ t2 ++ "\n" ++ t1 ++ " = " ++ s1
      ++ "\n" ++ t2 ++ " = ", "",
    by simp [gteFailMsg, String.append_assoc, String.append_empty]⟩⟩

/-- `lteFailMsg` reports `stmt > bound` and contains both formatted
values. -/
theorem lteFailMsg_contains (t1 t2 s1 s2 : String) :
    strContains (lteFailMsg t1 t2 s1 s2) (t1 ++ " > " ++ t2)
    ∧ strContains (lteFailMsg t1 t2 s1 s2) s1
    ∧ strContains (lteFailMsg t1 t2 s1 s2) s2 :=
  ⟨⟨"Comparison failed: ",
    "\n" ++ t1 ++ " = " ++ s1 ++ "\n" ++ t2 ++ " = " ++ s2,
    by simp [lteFailMsg, String.append_assoc]⟩,
   ⟨"Comparison failed: " ++ t1 ++ " > " ++ t2 ++ "\n" ++ t1 ++ " = ",
    "\n" ++ t2 ++ " = " ++ s2,
    by simp [lteFailMsg, String.append_assoc]⟩,
   ⟨"Comparison failed: " ++ t1 ++ " > " ++ t2 ++ "\n" ++ t1 ++ " = " ++ s1
      ++ "\n" ++ t2 ++ " = ", "",
    by simp [lteFailMsg, String.append_assoc, String.append_empty]⟩⟩

/-- C1: `TEST_THROWS_ANY` re-raises a thrown `TestException` with its
content unchanged (the explicit `catch (const TestException &)` handler),
and succeeds on any other thrown object (a `std::exception` descendant or
an unrelated object), which its `catch (...)` treats as the expected
case. -/
theorem throwsAny_reraises_failureRecord_accepts_any_other :
    (∀ (pos : SrcPos) (e : TestException),
      TEST_THROWS_ANY (.thrown (.testExc e)) pos = .thrown (.testExc e))
    ∧ (∀ (pos : SrcPos) (cn w : String),
      TEST_THROWS_ANY (.thrown (.stdExc cn w)) pos = .ok)
    ∧ (∀ (pos : SrcPos) (cn : String),
      TEST_THROWS_ANY (.thrown (.rawExc cn)) pos = .ok) :=
  ⟨fun _ _ => rfl, fun _ _ _ => rfl, fun _ _ => rfl⟩

/-- C2 counterexample: a `TestException` thrown under
`TEST_THROWS(Stmt, std::runtime_error)` is not re-raised unchanged: it hits
the macro's `catch (...)` and a new `TestException`, located at the
`TEST_THROWS` call site and carrying the generic unknown-exception message,
is thrown instead. -/
theorem throws_nested_failureRecord_cex :
    TEST_THROWS (.thrown (.testExc ⟨"t.cpp", 10, "testCase", "inner failure"⟩))
        (.stdC "std::runtime_error") ⟨"t.cpp", 20, "caller"⟩
      = .thrown (.testExc ⟨"t.cpp", 20, "caller",
          throwsUnknownMsg (.stdC "std::runtime_error")⟩)
    ∧ TEST_THROWS (.thrown (.testExc ⟨"t.cpp", 10, "testCase", "inner failure"⟩))
        (.stdC "std::runtime_error") ⟨"t.cpp", 20, "caller"⟩
      ≠ .thrown (.testExc ⟨"t.cpp", 10, "testCase", "inner failure"⟩) :=
  ⟨rfl, by decide⟩

/-- C2 amended: for every expected kind other than `TestException` itself,
`TEST_THROWS` replaces a thrown `TestException` with a new record at the
`TEST_THROWS` call site carrying the generic unknown-exception message
(the record matches neither the expected class nor `std::exception`, so it
falls to `catch (...)`). -/
theorem throws_nested_failureRecord_replaced (e : TestException)
    (c : ExcClass) (pos : SrcPos) (h : c ≠ ExcClass.testExceptionC) :
    TEST_THROWS (.thrown (.testExc e)) c pos
      = .thrown (.testExc ⟨pos.file, pos.line, pos.func, throwsUnknownMsg c⟩) := by
  cases c with
  | testExceptionC => exact absurd rfl h
  | stdC n => rfl
  | rawC n => rfl

/-- Witness for C2's amended theorem at a concrete nested failure. -/
theorem throws_nested_failureRecord_replaced_witness :
    TEST_THROWS (.thrown (.testExc ⟨"w.cpp", 5, "innerFn", "msg"⟩))
        (.stdC "std::runtime_error") ⟨"w.cpp", 9, "outerFn"⟩
      = .thrown (.testExc ⟨"w.cpp", 9, "outerFn",
          throwsUnknownMsg (.stdC "std::runtime_error")⟩) :=
  throws_nested_failureRecord_replaced ⟨"w.cpp", 5, "innerFn", "msg"⟩
    (.stdC "std::runtime_error") ⟨"w.cpp", 9, "outerFn"⟩ (by decide)

/-- C3 counterexample: when the statement raises nothing,
`TEST_THROWS(Stmt, std::runtime_error)` raises a `TestException` carrying
the generic unknown-exception message, not the "Failed to throw" message:
the macro's own "Failed to throw" record is thrown inside the `try` and is
itself caught by the macro's `catch (...)` and replaced. -/
theorem throws_noThrow_message_cex :
    TEST_THROWS .ok (.stdC "std::runtime_error") ⟨"t.cpp", 30, "testCase"⟩
      = .thrown (.testExc ⟨"t.cpp", 30, "testCase",
          throwsUnknownMsg (.stdC "std::runtime_error")⟩)
    ∧ throwsUnknownMsg (.stdC "std::runtime_error")
      ≠ throwsNoThrowMsg (.stdC "std::runtime_error") :=
  ⟨rfl, by decide⟩

/-- C3 amended: with an expected kind other than `TestException`, a
statement that raises nothing makes `TEST_THROWS` raise a `TestException`
at the call site whose message is the generic unknown-exception message
naming the expected kind; with expected kind `TestException` it raises
nothing at all (its own "Failed to throw" record is caught as the expected
case).  A different `std::exception`-descendant raised makes it raise a
record whose message includes that error's `what()` message. -/
theorem throws_message_contract :
    (∀ (n : String) (pos : SrcPos),
      TEST_THROWS .ok (.stdC n) pos
        = .thrown (.testExc ⟨pos.file, pos.line, pos.func,
            throwsUnknownMsg (.stdC n)⟩))
    ∧ (∀ (n : String) (pos : SrcPos),
      TEST_THROWS .ok (.rawC n) pos
        = .thrown (.testExc ⟨pos.file, pos.line, pos.func,
            throwsUnknownMsg (.rawC n)⟩))
    ∧ (∀ pos : SrcPos, TEST_THROWS .ok .testExceptionC pos = .ok)
    ∧ (∀ (c : ExcClass) (cn w : String) (pos : SrcPos),
      catchMatches c (.stdExc cn w) = false →
        TEST_THROWS (.thrown (.stdExc cn w)) c pos
          = .thrown (.testExc ⟨pos.file, pos.line, pos.func, throwsStdMsg c w⟩)
          ∧ strContains (throwsStdMsg c w) w)
    ∧ (∀ c : ExcClass, strContains (throwsUnknownMsg c) c.name) := by
  refine ⟨fun n pos => rfl, fun n pos => rfl, fun pos => rfl,
    fun c cn w pos h => ⟨?_, ?_⟩, fun c => ?_⟩
  · simp [TEST_THROWS, throwsCatch, throwsDispatch, h, Thrown.what]
  · exact ⟨"An unexpected std::exception descendant was thrown, was expecting type "
        ++ c.name ++ ". Exception message is: ", "",
      by simp [throwsStdMsg, String.append_assoc, String.append_empty]⟩
  · exact ⟨"An unexpected unknown exception object was thrown, was expecting type ",
      "", by simp [throwsUnknownMsg, String.append_assoc, String.append_empty]⟩

/-- C4: a thrown `TestException` is never consumed by the generic
`catch (const std::exception &)` handler: in `TEST_THROWS`'s catch chain it
selects the explicit expected-class handler (only when the expected class
is `TestException` itself) or the `catch (...)` handler, and in `main`'s
catch chain it selects the explicit `TestException` handler. -/
theorem failureRecord_invisible_to_std_handler :
    (∀ (c : ExcClass) (e : TestException),
      throwsDispatch c (.testExc e)
        = if c = ExcClass.testExceptionC then ThrowsHandler.expected
          else ThrowsHandler.catchAll)
    ∧ (∀ e : TestException, (mainCatch (.testExc e)).1 = MainHandler.testExcH) :=
  ⟨fun c e => by cases c <;> rfl, fun _ => rfl⟩

/-- The test-case sequence itself prints nothing: its event trace holds
only `ran` events. -/
theorem runSeq_no_printed (cases : List TestCase) :
    ((runSeq cases).1).filterMap printedOf = [] := by
  induction cases with
  | nil => rfl
  | cons c rest ih =>
    cases hb : c.body with
    | ok => simp [runSeq, hb, printedOf, ih]
    | thrown t => simp [runSeq, hb, printedOf]

/-- Passing test cases at the front of the sequence each run and then give
way to the rest of the sequence. -/
theorem runSeq_append_ok (pre rest : List TestCase)
    (h : ∀ d ∈ pre, d.body = Outcome.ok) :
    runSeq (pre ++ rest)
      = (pre.map (fun d => Event.ran d.id) ++ (runSeq rest).1,
         (runSeq rest).2) := by
  induction pre with
  | nil => simp
  | cons d pre ih =>
    have hd : d.body = Outcome.ok := h d (by simp)
    have hpre : ∀ x ∈ pre, x.body = Outcome.ok := fun x hx => h x (by simp [hx])
    simp [runSeq, hd, ih hpre]

/-- Filtering a trace of pure `ran` events for started-case ids yields the
cases' ids. -/
theorem filterMap_ranOf_map (l : List TestCase) :
    List.filterMap (ranOf ∘ fun d => Event.ran d.id) l
      = l.map TestCase.id := by
  induction l with
  | nil => rfl
  | cons d l ih => simp [ranOf, ih, Function.comp]

/-- The failure line printed for a `TestException` contains its file name,
line number, function name and message. -/
theorem failTestExcLine_contains (e : TestException) :
    strContains (failTestExcLine e) e.mFileName
    ∧ strContains (failTestExcLine e) (toString e.mLineNumber)
    ∧ strContains (failTestExcLine e) e.mFunctionName
    ∧ strContains (failTestExcLine e) e.mMessage :=
  ⟨⟨"Test has failed at file ",
    ", line " ++ toString e.mLineNumber ++ ", function " ++ e.mFunctionName
      ++ ":\n" ++ e.mMessage,
    by simp [failTestExcLine, String.append_assoc]⟩,
   ⟨"Test has failed at file " ++ e.mFileName ++ ", line ",
    ", function " ++ e.mFunctionName ++ ":\n" ++ e.mMessage,
    by simp [failTestExcLine, String.append_assoc]⟩,
   ⟨"Test has failed at file " ++ e.mFileName ++ ", line "
      ++ toString e.mLineNumber ++ ", function ",
    ":\n" ++ e.mMessage,
    by simp [failTestExcLine, String.append_assoc]⟩,
   ⟨"Test has failed at file " ++ e.mFileName ++ ", line "
      ++ toString e.mLineNumber ++ ", function " ++ e.mFunctionName ++ ":\n",
    "", by simp [failTestExcLine, String.append_assoc, String.append_empty]⟩⟩

/-- C5: the runner exits 0 exactly when the sequence completes without an
exception (printing the completion line, and then only the banner and the
completion line); it exits 1 whenever any exception surfaces, and when the
exception is a `TestException`, the printed failure line carries its file,
line, function and message. -/
theorem runner_exit_and_reporting (testName : String) (cases : List TestCase) :
    ((IMPLEMENT_TEST_MAIN testName cases).exitCode = 0
      ↔ (runSeq cases).2 = Outcome.ok)
    ∧ ((IMPLEMENT_TEST_MAIN testName cases).exitCode = 0
      ∨ (IMPLEMENT_TEST_MAIN testName cases).exitCode = 1)
    ∧ ((runSeq cases).2 = Outcome.ok →
        (IMPLEMENT_TEST_MAIN testName cases).output
          = [startLine testName, finishedLine])
    ∧ (∀ t : Thrown, (runSeq cases).2 = Outcome.thrown t →
        (IMPLEMENT_TEST_MAIN testName cases).exitCode = 1
        ∧ (IMPLEMENT_TEST_MAIN testName cases).output
            = [startLine testName, (mainCatch t).2])
    ∧ (∀ e : TestException,
        (runSeq cases).2 = Outcome.thrown (Thrown.testExc e) →
        failTestExcLine e ∈ (IMPLEMENT_TEST_MAIN testName cases).output
        ∧ strContains (failTestExcLine e) e.mFileName
        ∧ strContains (failTestExcLine e) (toString e.mLineNumber)
        ∧ strContains (failTestExcLine e) e.mFunctionName
        ∧ strContains (failTestExcLine e) e.mMessage) := by
  cases h : (runSeq cases).2 with
  | ok =>
    refine ⟨by simp [IMPLEMENT_TEST_MAIN, h], by simp [IMPLEMENT_TEST_MAIN, h],
      fun _ => ?_, fun t ht => absurd ht (by simp),
      fun e he => absurd he (by simp)⟩
    simp [IMPLEMENT_TEST_MAIN, h, RunResult.output, runSeq_no_printed,
      printedOf]
  | thrown t0 =>
    have hout : (IMPLEMENT_TEST_MAIN testName cases).output
        = [startLine testName, (mainCatch t0).2] := by
      simp [IMPLEMENT_TEST_MAIN, h, RunResult.output, runSeq_no_printed,
        printedOf]
    refine ⟨by simp [IMPLEMENT_TEST_MAIN, h], by simp [IMPLEMENT_TEST_MAIN, h],
      fun hok => absurd hok (by simp),
      fun t ht => ?_, fun e he => ?_⟩
    · obtain rfl : t0 = t := by injection ht
      exact ⟨by simp [IMPLEMENT_TEST_MAIN, h], hout⟩
    · obtain rfl : t0 = Thrown.testExc e := by injection he
      refine ⟨?_, failTestExcLine_contains e⟩
      rw [hout]
      simp [mainCatch]

/-- C6: with all cases before `c` passing and `c` raising, the run prints
the start banner first, executes exactly the passing prefix and then `c`
(no case after `c` ever starts), prints exactly the report of `c`'s
exception, and exits 1. -/
theorem runner_fail_fast (testName : String) (pre : List TestCase)
    (c : TestCase) (post : List TestCase) (t : Thrown)
    (hpre : ∀ d ∈ pre, d.body = Outcome.ok)
    (hc : c.body = Outcome.thrown t) :
    IMPLEMENT_TEST_MAIN testName (pre ++ c :: post)
      = ⟨Event.printed (startLine testName)
          :: (pre.map (fun d => Event.ran d.id)
            ++ [Event.ran c.id, Event.printed (mainCatch t).2]), 1⟩
    ∧ (IMPLEMENT_TEST_MAIN testName (pre ++ c :: post)).executed
        = pre.map TestCase.id ++ [c.id]
    ∧ (IMPLEMENT_TEST_MAIN testName (pre ++ c :: post)).events.head?
        = some (Event.printed (startLine testName))
    ∧ (IMPLEMENT_TEST_MAIN testName (pre ++ c :: post)).output
        = [startLine testName, (mainCatch t).2] := by
  have h1 : runSeq (pre ++ c :: post)
      = (pre.map (fun d => Event.ran d.id) ++ [Event.ran c.id],
         Outcome.thrown t) := by
    rw [runSeq_append_ok pre _ hpre]
    simp [runSeq, hc]
  have hmain : IMPLEMENT_TEST_MAIN testName (pre ++ c :: post)
      = ⟨Event.printed (startLine testName)
          :: (pre.map (fun d => Event.ran d.id)
            ++ [Event.ran c.id, Event.printed (mainCatch t).2]), 1⟩ := by
    simp [IMPLEMENT_TEST_MAIN, h1]
  refine ⟨hmain, ?_, ?_, ?_⟩
  · rw [hmain]
    simp [RunResult.executed, ranOf, filterMap_ranOf_map]
  · rw [hmain]
    rfl
  · rw [hmain]
    simp [RunResult.output, printedOf, filterMap_ranOf_map]

/-- Witness for C6 at a concrete three-case suite whose second case
raises a `TestException`. -/
theorem runner_fail_fast_witness :
    IMPLEMENT_TEST_MAIN "Suite"
        [⟨1, .ok⟩, ⟨2, .thrown (.testExc ⟨"a.cpp", 7, "case2", "boom"⟩)⟩,
         ⟨3, .ok⟩]
      = ⟨[Event.printed (startLine "Suite"), Event.ran 1, Event.ran 2,
          Event.printed (mainCatch (.testExc ⟨"a.cpp", 7, "case2", "boom"⟩)).2],
         1⟩ :=
  (runner_fail_fast "Suite" [⟨1, .ok⟩]
    ⟨2, .thrown (.testExc ⟨"a.cpp", 7, "case2", "boom"⟩)⟩ [⟨3, .ok⟩]
    (.testExc ⟨"a.cpp", 7, "case2", "boom"⟩) (by decide) rfl).1

/-- C7: `TEST_EQUAL` returns normally on equal values and raises nothing;
on unequal values it throws a `TestException` at the call site whose
message contains the stringized source text of both operand expressions
and both formatted operand values. -/
theorem equal_check_contract {α : Type} [DecidableEq α] [ToString α]
    (a b : α) (t1 t2 : String) (pos : SrcPos) :
    (a = b → TEST_EQUAL a b t1 t2 pos = Outcome.ok)
    ∧ (a ≠ b →
        TEST_EQUAL a b t1 t2 pos
          = .thrown (.testExc ⟨pos.file, pos.line, pos.func,
              equalFailMsg t1 t2 (toString a) (toString b)⟩)
        ∧ strContains (equalFailMsg t1 t2 (toString a) (toString b)) t1
        ∧ strContains (equalFailMsg t1 t2 (toString a) (toString b)) t2
        ∧ strContains (equalFailMsg t1 t2 (toString a) (toString b))
            (toString a)
        ∧ strContains (equalFailMsg t1 t2 (toString a) (toString b))
            (toString b)) := by
  constructor
  · intro h
    simp [TEST_EQUAL, h]
  · intro h
    obtain ⟨h1, h2, h3, h4⟩ :=
      equalFailMsg_contains t1 t2 (toString a) (toString b)
    exact ⟨by simp [TEST_EQUAL, h], h1, h2, h3, h4⟩

/-- C8: a check evaluates each operand expression exactly once: the
effect trace of the full macro expansion is one evaluation of the first
operand followed by one evaluation of the second, nothing else, whether
the check succeeds or fails (the diagnostics only reread the stored
values `v1`, `v2`). -/
theorem checks_evaluate_operands_once :
    (∀ {α : Type} [DecidableEq α] [ToString α] (e1 e2 : Expr α)
        (t1 t2 : String) (pos : SrcPos),
      TEST_EQUAL_run e1 e2 t1 t2 pos
        = (e1.effects ++ e2.effects, TEST_EQUAL e1.value e2.value t1 t2 pos))
    ∧ (∀ {α : Type} [LinearOrder α] [ToString α] (e1 e2 : Expr α)
        (t1 t2 : String) (pos : SrcPos),
      TEST_GREATER_THAN_OR_EQUAL_run e1 e2 t1 t2 pos
        = (e1.effects ++ e2.effects,
           TEST_GREATER_THAN_OR_EQUAL e1.value e2.value t1 t2 pos)) := by
  constructor <;> intros <;> rfl

/-- C9: `TEST_GREATER_THAN_OR_EQUAL` returns normally when `stmt >= bound`
and otherwise throws a `TestException` whose message reports
`stmt < bound` (the stringized operand texts joined by " < ") together
with both formatted values; `TEST_LESS_THAN_OR_EQUAL` symmetrically
succeeds when `stmt <= bound` and fails reporting `stmt > bound`. -/
theorem order_checks_contract :
    (∀ {α : Type} [LinearOrder α] [ToString α] (a b : α)
        (t1 t2 : String) (pos : SrcPos),
      (b ≤ a → TEST_GREATER_THAN_OR_EQUAL a b t1 t2 pos = Outcome.ok)
      ∧ (a < b →
          TEST_GREATER_THAN_OR_EQUAL a b t1 t2 pos
            = .thrown (.testExc ⟨pos.file, pos.line, pos.func,
                gteFailMsg t1 t2 (toString a) (toString b)⟩)
          ∧ strContains (gteFailMsg t1 t2 (toString a) (toString b))
              (t1 ++ " < " ++ t2)
          ∧ strContains (gteFailMsg t1 t2 (toString a) (toString b))
              (toString a)
          ∧ strContains (gteFailMsg t1 t2 (toString a) (toString b))
              (toString b)))
    ∧ (∀ {α : Type} [LinearOrder α] [ToString α] (a b : α)
        (t1 t2 : String) (pos : SrcPos),
      (a ≤ b → TEST_LESS_THAN_OR_EQUAL a b t1 t2 pos = Outcome.ok)
      ∧ (b < a →
          TEST_LESS_THAN_OR_EQUAL a b t1 t2 pos
            = .thrown (.testExc ⟨pos.file, pos.line, pos.func,
                lteFailMsg t1 t2 (toString a) (toString b)⟩)
          ∧ strContains (lteFailMsg t1 t2 (toString a) (toString b))
              (t1 ++ " > " ++ t2)
          ∧ strContains (lteFailMsg t1 t2 (toString a) (toString b))
              (toString a)
          ∧ strContains (lteFailMsg t1 t2 (toString a) (toString b))
              (toString b))) := by
  constructor
  · intro α _ _ a b t1 t2 pos
    constructor
    · intro h
      simp [TEST_GREATER_THAN_OR_EQUAL, not_lt.mpr h]
    · intro h
      obtain ⟨h1, h2, h3⟩ := gteFailMsg_contains t1 t2 (toString a) (toString b)
      exact ⟨by simp [TEST_GREATER_THAN_OR_EQUAL, h], h1, h2, h3⟩
  · intro α _ _ a b t1 t2 pos
    constructor
    · intro h
      simp [TEST_LESS_THAN_OR_EQUAL, not_lt.mpr h]
    · intro h
      obtain ⟨h1, h2, h3⟩ := lteFailMsg_contains t1 t2 (toString a) (toString b)
      exact ⟨by simp [TEST_LESS_THAN_OR_EQUAL, h], h1, h2, h3⟩

/-- C10: in every two-operand check the first operand expression is fully
evaluated before the second: the emitted effect trace is the first
operand's effects followed by the second's, whether the check succeeds or
fails. -/
theorem operands_evaluated_left_to_right :
    (∀ {α : Type} [DecidableEq α] [ToString α] (e1 e2 : Expr α)
        (t1 t2 : String) (pos : SrcPos),
      (TEST_EQUAL_run e1 e2 t1 t2 pos).1 = e1.effects ++ e2.effects)
    ∧ (∀ {α : Type} [DecidableEq α] [ToString α] (e1 e2 : Expr α)
        (t1 t2 : String) (pos : SrcPos),
      (TEST_NOTEQUAL_run e1 e2 t1 t2 pos).1 = e1.effects ++ e2.effects) := by
  constructor <;> intros <;> rfl

end TestHelpers
